import Mathlib

/-!
Verification of the four tokamak scaling-law functions from the notebook
`Figures_1-3.ipynb` (H. Zohm, "On the size of tokamak fusion power plants",
Phil. Trans. A 2019).  The notebook defines a parameter record
`ReactorScaling`, an ITER reference point `RS_ITER`, and four functions
`B_Pfus`, `B_Q_PB`, `B_Q_CD`, `B_f_zdiv`, each mapping a major radius `R`
(or a numpy array of radii), a target parameter set and a reference
parameter set to the on-axis field required by one physical constraint.

The embedding below translates the Python arithmetic into exact real
arithmetic: Python's float `**` with a fractional exponent becomes
`Real.rpow`, integer exponents become `Monoid.npow`, and numpy's
element-wise broadcast over an array of radii becomes `List.map`.
-/

open Real

noncomputable section

/-- The `ReactorScaling` record from the notebook: a collection of physics
and engineering parameters.  `B` and `R` are the reference on-axis field and
plasma radius set by `set_B_and_R_ref`; the four law functions read them only
from the reference instance, so target instances carry arbitrary values there
(the notebook's target instances never set them). -/
structure ReactorScaling where
  A : ℝ
  q : ℝ
  H : ℝ
  beta_N : ℝ
  f_GW : ℝ
  f_LH : ℝ
  P_fus : ℝ
  Q_CD : ℝ
  Q_PB : ℝ
  B : ℝ
  R : ℝ

/-- ITER's specification as entered in the notebook:
`RS_ITER = ReactorScaling(A=3.1, q=3.1, H=1.0, beta_N=1.8, f_GW=0.85,
f_LH=1.33, P_fus=400, Q_CD=1, Q_PB=10)` followed by
`RS_ITER.set_B_and_R_ref(5.2, 6.2)`. -/
def RS_ITER : ReactorScaling :=
  { A := 3.1, q := 3.1, H := 1, beta_N := 1.8, f_GW := 0.85, f_LH := 1.33,
    P_fus := 400, Q_CD := 1, Q_PB := 10, B := 5.2, R := 6.2 }

/-- The bootstrap-current coefficient computed inside `B_Q_CD`:
`c_BS = 0.7 * 0.00331/0.104`. -/
def c_BS : ℝ := 0.7 * 0.00331 / 0.104

/-- The calibration constant computed inside `B_Pfus`:
`c_fus = P_fus_ref * q_ref**2 * A_ref**4 / (beta_N_ref**2 * B_ref**4 * R_ref**3)`. -/
def c_fus (reactor_ref : ReactorScaling) : ℝ :=
  reactor_ref.P_fus * reactor_ref.q ^ 2 * reactor_ref.A ^ 4 /
    (reactor_ref.beta_N ^ 2 * reactor_ref.B ^ 4 * reactor_ref.R ^ 3)

/-- `B_Pfus(R, reactor, reactor_ref)`: Equation 2.1 solved for B.
The body is `numerator/denominator` with
`numerator = P_fus**0.25 * q**0.5 * A` and
`denominator = c_fus**0.25 * beta_N**0.5 * R**0.75`. -/
def B_Pfus (R : ℝ) (reactor reactor_ref : ReactorScaling) : ℝ :=
  reactor.P_fus ^ (0.25 : ℝ) * reactor.q ^ (0.5 : ℝ) * reactor.A /
    (c_fus reactor_ref ^ (0.25 : ℝ) * reactor.beta_N ^ (0.5 : ℝ) * R ^ (0.75 : ℝ))

/-- The calibration constant computed inside `B_Q_PB`:
`c_PB = (Q_PB_ref**(-1) + 1/5) / (q_ref**3.1 * A_ref**3.53 /
(H_ref**3.23 * beta_N_ref**0.1 * R_ref**2.7 * B_ref**3.7))`. -/
def c_PB (reactor_ref : ReactorScaling) : ℝ :=
  (reactor_ref.Q_PB⁻¹ + 1 / 5) /
    (reactor_ref.q ^ (3.1 : ℝ) * reactor_ref.A ^ (3.53 : ℝ) /
      (reactor_ref.H ^ (3.23 : ℝ) * reactor_ref.beta_N ^ (0.1 : ℝ) *
        reactor_ref.R ^ (2.7 : ℝ) * reactor_ref.B ^ (3.7 : ℝ)))

/-- The base of the final `**(1/3.7)` in `B_Q_PB`:
`first_term * numerator / denominator` with
`first_term = c_PB / (Q_PB**(-1) + 1/5)`, `numerator = q**3.1 * A**3.53`,
`denominator = H**3.23 * beta_N**0.1 * R**2.7`. -/
def B_Q_PB_base (R : ℝ) (reactor reactor_ref : ReactorScaling) : ℝ :=
  c_PB reactor_ref / (reactor.Q_PB⁻¹ + 1 / 5) *
      (reactor.q ^ (3.1 : ℝ) * reactor.A ^ (3.53 : ℝ)) /
    (reactor.H ^ (3.23 : ℝ) * reactor.beta_N ^ (0.1 : ℝ) * R ^ (2.7 : ℝ))

/-- `B_Q_PB(R, reactor, reactor_ref)`: Equation 2.2 solved for B,
`(first_term * numerator / denominator)**(1/3.7)`. -/
def B_Q_PB (R : ℝ) (reactor reactor_ref : ReactorScaling) : ℝ :=
  B_Q_PB_base R reactor reactor_ref ^ ((1 : ℝ) / 3.7)

/-- `B_Q_CD(R, reactor, reactor_ref)`: Equation 2.3 solved for B.  The body
sets `Z_eff_ref = 1`, `Z_eff = Z_eff_ref`, and returns `B_ref` times the
product of ratio factors written in the source. -/
def B_Q_CD (R : ℝ) (reactor reactor_ref : ReactorScaling) : ℝ :=
  reactor_ref.B * (reactor.Q_CD / reactor_ref.Q_CD) ^ ((1 : ℝ) / 3) *
      (reactor.A / reactor_ref.A) * (reactor_ref.R / R) *
      (reactor_ref.beta_N / reactor.beta_N) *
      (reactor.f_GW / reactor_ref.f_GW) ^ ((2 : ℝ) / 3) *
      (((5 : ℝ) + 1) / ((5 : ℝ) + 1)) ^ ((1 : ℝ) / 3) *
      ((1 - c_BS * reactor.A ^ (0.5 : ℝ) * reactor.q * reactor.beta_N) /
        (1 - c_BS * reactor_ref.A ^ (0.5 : ℝ) * reactor_ref.q * reactor_ref.beta_N)) ^
        ((1 : ℝ) / 3)

/-- `B_f_zdiv(R, reactor, reactor_ref)`: Equation 2.4 solved for B. -/
def B_f_zdiv (R : ℝ) (reactor reactor_ref : ReactorScaling) : ℝ :=
  reactor_ref.B *
    ((reactor.f_GW / reactor_ref.f_GW) ^ (1.18 : ℝ) *
        (reactor_ref.f_LH / reactor.f_LH) ^ (1.14 : ℝ) *
        (reactor_ref.q / reactor.q) ^ (0.32 : ℝ) *
        (reactor_ref.R / R) ^ (1.33 : ℝ)) ^ ((1 : ℝ) / 0.88)

/-- Vectorized evaluation of `B_Pfus` over a numpy array of radii: every
arithmetic operation in the body broadcasts element-wise over `R`, so the
result is the element-wise map of the scalar function. -/
def B_Pfus_vec (Rs : List ℝ) (reactor reactor_ref : ReactorScaling) : List ℝ :=
  Rs.map fun r => B_Pfus r reactor reactor_ref

/-- Vectorized evaluation of `B_Q_PB` over a numpy array of radii. -/
def B_Q_PB_vec (Rs : List ℝ) (reactor reactor_ref : ReactorScaling) : List ℝ :=
  Rs.map fun r => B_Q_PB r reactor reactor_ref

/-- Vectorized evaluation of `B_Q_CD` over a numpy array of radii. -/
def B_Q_CD_vec (Rs : List ℝ) (reactor reactor_ref : ReactorScaling) : List ℝ :=
  Rs.map fun r => B_Q_CD r reactor reactor_ref

/-- Vectorized evaluation of `B_f_zdiv` over a numpy array of radii. -/
def B_f_zdiv_vec (Rs : List ℝ) (reactor reactor_ref : ReactorScaling) : List ℝ :=
  Rs.map fun r => B_f_zdiv r reactor reactor_ref

/-- Power with the sign behaviour of Python/numpy float `**` made explicit:
a negative base raised to a (non-integer) fractional exponent yields `nan`
(numpy arrays, with a warning) or a complex number (Python scalars), i.e. no
real result, modelled as `none`; no exception is ever raised.  This is used
only at the fractional-exponent positions of the source. -/
def nppow (x y : ℝ) : Option ℝ := if x < 0 then none else some (x ^ y)

/-- `B_Pfus` with the numpy float semantics of each fractional power made
explicit via `nppow`: the function body is a plain arithmetic expression with
no validation and no raise, so the only non-`some` outcome is the silent
`nan`/complex (`none`) from a negative base. -/
def B_Pfus_np (R : ℝ) (reactor reactor_ref : ReactorScaling) : Option ℝ :=
  (nppow reactor.P_fus 0.25).bind fun p =>
  (nppow reactor.q 0.5).bind fun s =>
  (nppow (c_fus reactor_ref) 0.25).bind fun c =>
  (nppow reactor.beta_N 0.5).bind fun b =>
  (nppow R 0.75).bind fun r =>
  some (p * s * reactor.A / (c * b * r))

/-- The `FusionPowerLaw` calibration constant as claim C2 words it:
`c = P_fus_ref * q_ref^2 / (beta_N_ref^2 * B_ref^4 * R_ref^3)`, with no
aspect-ratio factor.  Stated from the claim, for comparison with `c_fus`. -/
def c_fus_claimC2 (reactor_ref : ReactorScaling) : ℝ :=
  reactor_ref.P_fus * reactor_ref.q ^ 2 /
    (reactor_ref.beta_N ^ 2 * reactor_ref.B ^ 4 * reactor_ref.R ^ 3)

/-- The `FusionPowerLaw` output as claim C2 words it:
`B = (P_fus^0.25 * q^0.5 * A) / (c^0.25 * beta_N^0.5 * R^0.75)` with `c`
the claimed constant `c_fus_claimC2`.  Stated from the claim. -/
def B_Pfus_claimC2 (R : ℝ) (reactor reactor_ref : ReactorScaling) : ℝ :=
  reactor.P_fus ^ (0.25 : ℝ) * reactor.q ^ (0.5 : ℝ) * reactor.A /
    (c_fus_claimC2 reactor_ref ^ (0.25 : ℝ) * reactor.beta_N ^ (0.5 : ℝ) *
      R ^ (0.75 : ℝ))

/-- The `CurrentDriveLaw` output as claim C3 words it: `B_ref` times six
ratio terms raised to the powers {1/3, 1, −1, −1, 2/3, 1/3} applied
respectively to `(Q_CD/Q_CD_ref)`, `(A/A_ref)`, `(R_ref/R)`,
`(beta_N_ref/beta_N)`, `(f_GW/f_GW_ref)` and the bootstrap ratio.
Stated from the claim, for comparison with `B_Q_CD`. -/
def B_Q_CD_claimC3 (R : ℝ) (reactor reactor_ref : ReactorScaling) : ℝ :=
  reactor_ref.B * (reactor.Q_CD / reactor_ref.Q_CD) ^ ((1 : ℝ) / 3) *
      (reactor.A / reactor_ref.A) ^ (1 : ℝ) *
      (reactor_ref.R / R) ^ (-1 : ℝ) *
      (reactor_ref.beta_N / reactor.beta_N) ^ (-1 : ℝ) *
      (reactor.f_GW / reactor_ref.f_GW) ^ ((2 : ℝ) / 3) *
      ((1 - c_BS * reactor.A ^ (0.5 : ℝ) * reactor.q * reactor.beta_N) /
        (1 - c_BS * reactor_ref.A ^ (0.5 : ℝ) * reactor_ref.q * reactor_ref.beta_N)) ^
        ((1 : ℝ) / 3)

/-- Target equal to ITER except `P_fus = 800` (claim C6's scenario). -/
def RS_P800 : ReactorScaling :=
  { A := 3.1, q := 3.1, H := 1, beta_N := 1.8, f_GW := 0.85, f_LH := 1.33,
    P_fus := 800, Q_CD := 1, Q_PB := 10, B := 5.2, R := 6.2 }

/-- Target equal to ITER except `Q_PB = 1` (claim C7's boundary scenario). -/
def RS_QPB1 : ReactorScaling :=
  { A := 3.1, q := 3.1, H := 1, beta_N := 1.8, f_GW := 0.85, f_LH := 1.33,
    P_fus := 400, Q_CD := 1, Q_PB := 1, B := 5.2, R := 6.2 }

/-- Target agreeing with ITER on `f_GW`, `f_LH` and `q` but differing on all
other parameters (witness for claim C10). -/
def RS_alt : ReactorScaling :=
  { A := 9, q := 3.1, H := 4, beta_N := 7, f_GW := 0.85, f_LH := 1.33,
    P_fus := 999, Q_CD := 55, Q_PB := 66, B := 0, R := 0 }

/-- Target equal to ITER except a negative `beta_N` (an input where a
negative value is the base of the fractional power `**0.5`). -/
def RS_negBeta : ReactorScaling :=
  { A := 3.1, q := 3.1, H := 1, beta_N := -1.8, f_GW := 0.85, f_LH := 1.33,
    P_fus := 400, Q_CD := 1, Q_PB := 10, B := 5.2, R := 6.2 }

/-- A second target with a negative `beta_N`, used to instantiate the
general no-error statement at a different concrete point. -/
def RS_negBeta2 : ReactorScaling :=
  { A := 3.1, q := 3.1, H := 1, beta_N := -0.5, f_GW := 0.85, f_LH := 1.33,
    P_fus := 500, Q_CD := 1, Q_PB := 10, B := 5.2, R := 6.2 }

lemma rpow_npow_eq_npow (x : ℝ) (hx : 0 ≤ x) (z : ℝ) (n m : ℕ)
    (h : z * (n : ℝ) = (m : ℝ)) : (x ^ z) ^ n = x ^ m := by
  rw [← Real.rpow_natCast (x ^ z) n, ← Real.rpow_mul hx, h, Real.rpow_natCast]

lemma rpow_npow_cancel (x : ℝ) (hx : 0 ≤ x) (z : ℝ) (n : ℕ)
    (h : z * (n : ℝ) = 1) : (x ^ z) ^ n = x := by
  rw [← Real.rpow_natCast (x ^ z) n, ← Real.rpow_mul hx, h, Real.rpow_one]

lemma npow_rpow_cancel (x : ℝ) (hx : 0 ≤ x) (n : ℕ) (z : ℝ)
    (h : (n : ℝ) * z = 1) : (x ^ n) ^ z = x := by
  rw [← Real.rpow_natCast x n, ← Real.rpow_mul hx, h, Real.rpow_one]

lemma rpow_rpow_cancel (x : ℝ) (hx : 0 ≤ x) (z w : ℝ)
    (h : z * w = 1) : (x ^ z) ^ w = x := by
  rw [← Real.rpow_mul hx, h, Real.rpow_one]

lemma eq_of_pow_four_eq {a b : ℝ} (ha : 0 ≤ a) (hb : 0 ≤ b)
    (h : a ^ (4 : ℕ) = b ^ (4 : ℕ)) : a = b := by
  calc a = (a ^ (4 : ℕ)) ^ (0.25 : ℝ) :=
        (npow_rpow_cancel a ha 4 0.25 (by norm_num)).symm
    _ = (b ^ (4 : ℕ)) ^ (0.25 : ℝ) := by rw [h]
    _ = b := npow_rpow_cancel b hb 4 0.25 (by norm_num)

end

lemma bs_ITER_pos : 0 < 1 - c_BS * (3.1 : ℝ) ^ (0.5 : ℝ) * 3.1 * 1.8 := by
  have hs0 : (0 : ℝ) ≤ (3.1 : ℝ) ^ (0.5 : ℝ) := Real.rpow_nonneg (by norm_num) _
  have hs2 : ((3.1 : ℝ) ^ (0.5 : ℝ)) ^ (2 : ℕ) = (3.1 : ℝ) ^ (1 : ℕ) :=
    rpow_npow_eq_npow 3.1 (by norm_num) 0.5 2 1 (by norm_num)
  have hs : (3.1 : ℝ) ^ (0.5 : ℝ) < 1.8 := by nlinarith [hs0, hs2]
  have hc : c_BS = 2317 / 104000 := by norm_num [c_BS]
  rw [hc]
  nlinarith [hs, hs0]

lemma B_Q_CD_ITER_eval (r : ℝ) : B_Q_CD r RS_ITER RS_ITER = 5.2 * (6.2 / r) := by
  have hbs := bs_ITER_pos
  simp only [B_Q_CD, RS_ITER]
  rw [div_self hbs.ne']
  norm_num [Real.one_rpow]

lemma B_f_zdiv_ITER_eval (r : ℝ) :
    B_f_zdiv r RS_ITER RS_ITER = 5.2 * ((6.2 / r) ^ (1.33 : ℝ)) ^ ((1 : ℝ) / 0.88) := by
  simp only [B_f_zdiv, RS_ITER]
  norm_num [Real.one_rpow]

/-- C3 (amended): for every radius and every target/reference pair, `B_Q_CD`
returns `B_ref` times the six ratio terms `(Q_CD/Q_CD_ref)^(1/3)`,
`(A/A_ref)`, `(R_ref/R)`, `(beta_N_ref/beta_N)`, `(f_GW/f_GW_ref)^(2/3)` and
the bootstrap ratio to the `1/3` — i.e. with powers {1/3, 1, 1, 1, 2/3, 1/3}
on the listed ratios (the `Z_eff` factor in the source is identically 1). -/
theorem B_Q_CD_six_ratio_product (R : ℝ) (t ref : ReactorScaling) :
    B_Q_CD R t ref =
      ref.B * (t.Q_CD / ref.Q_CD) ^ ((1 : ℝ) / 3) * (t.A / ref.A) *
        (ref.R / R) * (ref.beta_N / t.beta_N) *
        (t.f_GW / ref.f_GW) ^ ((2 : ℝ) / 3) *
        ((1 - c_BS * t.A ^ (0.5 : ℝ) * t.q * t.beta_N) /
          (1 - c_BS * ref.A ^ (0.5 : ℝ) * ref.q * ref.beta_N)) ^ ((1 : ℝ) / 3) := by
  simp only [B_Q_CD]
  norm_num [Real.one_rpow]

/-- C3 (counterexample): at radius 3.1 with target = reference = ITER, the
code's `B_Q_CD` (= 10.4) differs from the claimed product with powers
{1/3, 1, −1, −1, 2/3, 1/3} applied literally to the listed ratios (= 2.6):
the −1 powers would invert the `(R_ref/R)` and `(beta_N_ref/beta_N)` factors
relative to the source. -/
theorem B_Q_CD_claimC3_refuted :
    B_Q_CD 3.1 RS_ITER RS_ITER ≠ B_Q_CD_claimC3 3.1 RS_ITER RS_ITER := by
  have h1 : B_Q_CD 3.1 RS_ITER RS_ITER = 10.4 := by
    rw [B_Q_CD_ITER_eval]; norm_num
  have hbs := bs_ITER_pos
  have h2 : B_Q_CD_claimC3 3.1 RS_ITER RS_ITER = 2.6 := by
    simp only [B_Q_CD_claimC3, RS_ITER]
    rw [div_self hbs.ne']
    norm_num [Real.one_rpow, Real.rpow_one, Real.rpow_neg_one]
  rw [h1, h2]
  norm_num

/-- C9 (counterexample): the bootstrap coefficient computed by the code,
`c_BS = 0.7 * 0.00331/0.104`, is not equal to the claimed fixed value
0.02228. -/
theorem c_BS_ne_claimed : c_BS ≠ 0.02228 := by
  norm_num [c_BS]

/-- C9 (amended): `c_BS` is computed as `0.7 * 0.00331/0.104 = 2317/104000 ≈
0.0222788`, which agrees with the documented value 0.02228 only after
rounding (the difference is below 2·10⁻⁶). -/
theorem c_BS_value : c_BS = 2317 / 104000 ∧ |c_BS - 0.02228| < 2 / 1000000 := by
  constructor
  · norm_num [c_BS]
  · rw [abs_lt]
    constructor <;> norm_num [c_BS]

/-- C10: `B_f_zdiv` depends only on the target's `f_GW`, `f_LH` and `q`
fields (besides the radius and the reference): two targets agreeing on those
three fields produce identical outputs. -/
theorem B_f_zdiv_depends_only_on_fGW_fLH_q (R : ℝ) (ref t1 t2 : ReactorScaling)
    (h1 : t1.f_GW = t2.f_GW) (h2 : t1.f_LH = t2.f_LH) (h3 : t1.q = t2.q) :
    B_f_zdiv R t1 ref = B_f_zdiv R t2 ref := by
  simp only [B_f_zdiv, h1, h2, h3]

/-- Witness for C10: the ITER target and `RS_alt` (which differs on `A`, `H`,
`beta_N`, `P_fus`, `Q_CD`, `Q_PB`) give the same `B_f_zdiv` value at R = 4. -/
theorem B_f_zdiv_depends_only_witness :
    B_f_zdiv 4 RS_ITER RS_ITER = B_f_zdiv 4 RS_alt RS_ITER :=
  B_f_zdiv_depends_only_on_fGW_fLH_q 4 RS_ITER RS_ITER RS_alt rfl rfl rfl

/-- C8: each law's vectorized output has the same length as the input radius
sequence, and evaluating the singleton `[r]` (where `r` is the sweep's `i`-th
entry) gives exactly the `i`-th element of the full sweep: the laws are pure,
with no R-dependent state between calls. -/
theorem laws_vectorized (t ref : ReactorScaling) (rs : List ℝ) (i : ℕ) (r : ℝ)
    (h : rs[i]? = some r) :
    ((B_Pfus_vec rs t ref).length = rs.length ∧
        (B_Pfus_vec [r] t ref).head? = (B_Pfus_vec rs t ref)[i]?) ∧
      ((B_Q_PB_vec rs t ref).length = rs.length ∧
        (B_Q_PB_vec [r] t ref).head? = (B_Q_PB_vec rs t ref)[i]?) ∧
      ((B_Q_CD_vec rs t ref).length = rs.length ∧
        (B_Q_CD_vec [r] t ref).head? = (B_Q_CD_vec rs t ref)[i]?) ∧
      ((B_f_zdiv_vec rs t ref).length = rs.length ∧
        (B_f_zdiv_vec [r] t ref).head? = (B_f_zdiv_vec rs t ref)[i]?) := by
  refine ⟨⟨?_, ?_⟩, ⟨?_, ?_⟩, ⟨?_, ?_⟩, ⟨?_, ?_⟩⟩ <;>
    simp [B_Pfus_vec, B_Q_PB_vec, B_Q_CD_vec, B_f_zdiv_vec, h]

/-- Witness for C8 at the sweep `[2, 6.2]`, index 1, radius 6.2. -/
theorem laws_vectorized_witness :
    ((B_Pfus_vec [2, 6.2] RS_ITER RS_ITER).length = ([2, 6.2] : List ℝ).length ∧
        (B_Pfus_vec [6.2] RS_ITER RS_ITER).head? = (B_Pfus_vec [2, 6.2] RS_ITER RS_ITER)[1]?) ∧
      ((B_Q_PB_vec [2, 6.2] RS_ITER RS_ITER).length = ([2, 6.2] : List ℝ).length ∧
        (B_Q_PB_vec [6.2] RS_ITER RS_ITER).head? = (B_Q_PB_vec [2, 6.2] RS_ITER RS_ITER)[1]?) ∧
      ((B_Q_CD_vec [2, 6.2] RS_ITER RS_ITER).length = ([2, 6.2] : List ℝ).length ∧
        (B_Q_CD_vec [6.2] RS_ITER RS_ITER).head? = (B_Q_CD_vec [2, 6.2] RS_ITER RS_ITER)[1]?) ∧
      ((B_f_zdiv_vec [2, 6.2] RS_ITER RS_ITER).length = ([2, 6.2] : List ℝ).length ∧
        (B_f_zdiv_vec [6.2] RS_ITER RS_ITER).head? = (B_f_zdiv_vec [2, 6.2] RS_ITER RS_ITER)[1]?) :=
  laws_vectorized RS_ITER RS_ITER [2, 6.2] 1 6.2 rfl

/-- C4 (counterexample): with the ITER reference and a target whose `beta_N`
is −1.8 (a negative base for the fractional power `**0.5`), `B_Pfus` silently
produces a non-real result (numpy `nan` / Python complex, modelled as `none`)
instead of signalling an invalid-input error — the source contains no
validation and never raises. -/
theorem B_Pfus_np_nan_at_negBeta : B_Pfus_np 6.2 RS_negBeta RS_ITER = none := by
  norm_num [B_Pfus_np, nppow, RS_negBeta, RS_ITER, c_fus]

/-- C4 (amended): the laws perform no input validation; an input in which a
negative value is the base of a fractional power propagates silently as a
non-real (`nan`/complex) result, never as a raised error — shown here for
`B_Pfus` with any negative `beta_N`. -/
theorem B_Pfus_np_silent_nan (R : ℝ) (t ref : ReactorScaling) (h : t.beta_N < 0) :
    B_Pfus_np R t ref = none := by
  by_cases hP : t.P_fus < 0 <;> by_cases hq : t.q < 0 <;>
    by_cases hc : c_fus ref < 0 <;>
    simp [B_Pfus_np, nppow, hP, hq, hc, h]

/-- Witness for the amended C4 at a different concrete input. -/
theorem B_Pfus_np_silent_nan_witness :
    RS_negBeta2.beta_N < 0 ∧ B_Pfus_np 3 RS_negBeta2 RS_ITER = none :=
  ⟨by norm_num [RS_negBeta2],
    B_Pfus_np_silent_nan 3 RS_negBeta2 RS_ITER (by norm_num [RS_negBeta2])⟩

/-- C2 (amended): `B_Pfus` computes its calibration constant *with* the
aspect-ratio factor, `c = c_claim · A_ref⁴` where `c_claim` is the constant
as the claim words it, and returns
`B = (P_fus^0.25 · q^0.5 · A) / (c^0.25 · beta_N^0.5 · R^0.75)`. -/
theorem B_Pfus_calibration_includes_A4 (R : ℝ) (t ref : ReactorScaling) :
    B_Pfus R t ref =
      t.P_fus ^ (0.25 : ℝ) * t.q ^ (0.5 : ℝ) * t.A /
        ((c_fus_claimC2 ref * ref.A ^ 4) ^ (0.25 : ℝ) * t.beta_N ^ (0.5 : ℝ) *
          R ^ (0.75 : ℝ)) := by
  have h : c_fus_claimC2 ref * ref.A ^ 4 = c_fus ref := by
    simp only [c_fus, c_fus_claimC2]
    ring
  rw [h]
  rfl

lemma B_Pfus_at_ITER : B_Pfus 6.2 RS_ITER RS_ITER = 5.2 := by
  have hB : B_Pfus 6.2 RS_ITER RS_ITER =
      (400 : ℝ) ^ (0.25 : ℝ) * (3.1 : ℝ) ^ (0.5 : ℝ) * 3.1 /
        ((400 * 3.1 ^ 2 * 3.1 ^ 4 / (1.8 ^ 2 * 5.2 ^ 4 * 6.2 ^ 3) : ℝ) ^ (0.25 : ℝ) *
          (1.8 : ℝ) ^ (0.5 : ℝ) * (6.2 : ℝ) ^ (0.75 : ℝ)) := rfl
  rw [hB]
  refine eq_of_pow_four_eq (by positivity) (by norm_num) ?_
  simp only [div_pow, mul_pow]
  rw [rpow_npow_cancel 400 (by norm_num) 0.25 4 (by norm_num),
    rpow_npow_eq_npow 3.1 (by norm_num) 0.5 4 2 (by norm_num),
    rpow_npow_cancel (400 * 3.1 ^ 2 * 3.1 ^ 4 / (1.8 ^ 2 * 5.2 ^ 4 * 6.2 ^ 3))
      (by positivity) 0.25 4 (by norm_num),
    rpow_npow_eq_npow 1.8 (by norm_num) 0.5 4 2 (by norm_num),
    rpow_npow_eq_npow 6.2 (by norm_num) 0.75 4 3 (by norm_num)]
  norm_num

lemma B_Q_PB_at_ITER : B_Q_PB 6.2 RS_ITER RS_ITER = 5.2 := by
  have ha : (0 : ℝ) < (3.1 : ℝ) ^ (3.1 : ℝ) := Real.rpow_pos_of_pos (by norm_num) _
  have hb : (0 : ℝ) < (3.1 : ℝ) ^ (3.53 : ℝ) := Real.rpow_pos_of_pos (by norm_num) _
  have hc : (0 : ℝ) < (1.8 : ℝ) ^ (0.1 : ℝ) := Real.rpow_pos_of_pos (by norm_num) _
  have hd : (0 : ℝ) < (6.2 : ℝ) ^ (2.7 : ℝ) := Real.rpow_pos_of_pos (by norm_num) _
  have he : (0 : ℝ) < (5.2 : ℝ) ^ (3.7 : ℝ) := Real.rpow_pos_of_pos (by norm_num) _
  have hT : ((10 : ℝ)⁻¹ + 1 / 5) ≠ 0 := by norm_num
  have hbase : B_Q_PB_base 6.2 RS_ITER RS_ITER = (5.2 : ℝ) ^ (3.7 : ℝ) := by
    have h1 : B_Q_PB_base 6.2 RS_ITER RS_ITER =
        ((10 : ℝ)⁻¹ + 1 / 5) /
            ((3.1 : ℝ) ^ (3.1 : ℝ) * (3.1 : ℝ) ^ (3.53 : ℝ) /
              ((1 : ℝ) ^ (3.23 : ℝ) * (1.8 : ℝ) ^ (0.1 : ℝ) * (6.2 : ℝ) ^ (2.7 : ℝ) *
                (5.2 : ℝ) ^ (3.7 : ℝ))) / ((10 : ℝ)⁻¹ + 1 / 5) *
            ((3.1 : ℝ) ^ (3.1 : ℝ) * (3.1 : ℝ) ^ (3.53 : ℝ)) /
          ((1 : ℝ) ^ (3.23 : ℝ) * (1.8 : ℝ) ^ (0.1 : ℝ) * (6.2 : ℝ) ^ (2.7 : ℝ)) := rfl
    rw [h1, Real.one_rpow]
    field_simp
    ring
  simp only [B_Q_PB]
  rw [hbase, rpow_rpow_cancel 5.2 (by norm_num) 3.7 (1 / 3.7) (by norm_num)]

lemma B_Q_CD_at_ITER : B_Q_CD 6.2 RS_ITER RS_ITER = 5.2 := by
  rw [B_Q_CD_ITER_eval]
  norm_num

lemma B_f_zdiv_at_ITER : B_f_zdiv 6.2 RS_ITER RS_ITER = 5.2 := by
  rw [B_f_zdiv_ITER_eval]
  norm_num [Real.one_rpow]

/-- C1: with target identical to the ITER reference (A=3.1, q=3.1, H=1,
beta_N=1.8, f_GW=0.85, f_LH=1.33, P_fus=400, Q_CD=1, Q_PB=10, B_ref=5.2,
R_ref=6.2), each of the four laws evaluated at R = 6.2 returns the reference
field 5.2 exactly (in exact real arithmetic, hence within any floating-point
tolerance). -/
theorem laws_reference_roundtrip :
    B_Pfus 6.2 RS_ITER RS_ITER = 5.2 ∧ B_Q_PB 6.2 RS_ITER RS_ITER = 5.2 ∧
      B_Q_CD 6.2 RS_ITER RS_ITER = 5.2 ∧ B_f_zdiv 6.2 RS_ITER RS_ITER = 5.2 :=
  ⟨B_Pfus_at_ITER, B_Q_PB_at_ITER, B_Q_CD_at_ITER, B_f_zdiv_at_ITER⟩

lemma B_Pfus_claimC2_at_ITER : B_Pfus_claimC2 6.2 RS_ITER RS_ITER = 16.12 := by
  have hB : B_Pfus_claimC2 6.2 RS_ITER RS_ITER =
      (400 : ℝ) ^ (0.25 : ℝ) * (3.1 : ℝ) ^ (0.5 : ℝ) * 3.1 /
        ((400 * 3.1 ^ 2 / (1.8 ^ 2 * 5.2 ^ 4 * 6.2 ^ 3) : ℝ) ^ (0.25 : ℝ) *
          (1.8 : ℝ) ^ (0.5 : ℝ) * (6.2 : ℝ) ^ (0.75 : ℝ)) := rfl
  rw [hB]
  refine eq_of_pow_four_eq (by positivity) (by norm_num) ?_
  simp only [div_pow, mul_pow]
  rw [rpow_npow_cancel 400 (by norm_num) 0.25 4 (by norm_num),
    rpow_npow_eq_npow 3.1 (by norm_num) 0.5 4 2 (by norm_num),
    rpow_npow_cancel (400 * 3.1 ^ 2 / (1.8 ^ 2 * 5.2 ^ 4 * 6.2 ^ 3))
      (by positivity) 0.25 4 (by norm_num),
    rpow_npow_eq_npow 1.8 (by norm_num) 0.5 4 2 (by norm_num),
    rpow_npow_eq_npow 6.2 (by norm_num) 0.75 4 3 (by norm_num)]
  norm_num

/-- C2 (counterexample): at R = 6.2 with target = reference = ITER, the
code's `B_Pfus` returns 5.2 while the claim's formula (calibration constant
without the aspect-ratio factor `A_ref⁴`) returns 16.12 = 5.2 · 3.1. -/
theorem B_Pfus_claimC2_refuted :
    B_Pfus 6.2 RS_ITER RS_ITER ≠ B_Pfus_claimC2 6.2 RS_ITER RS_ITER := by
  rw [B_Pfus_at_ITER, B_Pfus_claimC2_at_ITER]
  norm_num

/-- C6: with the ITER reference and a target equal to it except
`P_fus = 800`, the FusionPowerLaw at R = 6.2 returns exactly
`5.2 · 2^0.25`. -/
theorem B_Pfus_doubled_P : B_Pfus 6.2 RS_P800 RS_ITER = 5.2 * 2 ^ (0.25 : ℝ) := by
  have hB : B_Pfus 6.2 RS_P800 RS_ITER =
      (800 : ℝ) ^ (0.25 : ℝ) * (3.1 : ℝ) ^ (0.5 : ℝ) * 3.1 /
        ((400 * 3.1 ^ 2 * 3.1 ^ 4 / (1.8 ^ 2 * 5.2 ^ 4 * 6.2 ^ 3) : ℝ) ^ (0.25 : ℝ) *
          (1.8 : ℝ) ^ (0.5 : ℝ) * (6.2 : ℝ) ^ (0.75 : ℝ)) := rfl
  rw [hB]
  refine eq_of_pow_four_eq (by positivity) (by positivity) ?_
  simp only [div_pow, mul_pow]
  rw [rpow_npow_cancel 800 (by norm_num) 0.25 4 (by norm_num),
    rpow_npow_eq_npow 3.1 (by norm_num) 0.5 4 2 (by norm_num),
    rpow_npow_cancel (400 * 3.1 ^ 2 * 3.1 ^ 4 / (1.8 ^ 2 * 5.2 ^ 4 * 6.2 ^ 3))
      (by positivity) 0.25 4 (by norm_num),
    rpow_npow_eq_npow 1.8 (by norm_num) 0.5 4 2 (by norm_num),
    rpow_npow_eq_npow 6.2 (by norm_num) 0.75 4 3 (by norm_num),
    rpow_npow_cancel 2 (by norm_num) 0.25 4 (by norm_num)]
  norm_num

/-- C5: with target = ITER reference, each of the four laws is monotonically
non-increasing in R on the swept range [2, 10]: for radii r1 < r2 there, the
required field at r2 is at most the required field at r1. -/
theorem laws_monotone_ITER (r1 r2 : ℝ) (h1 : 2 ≤ r1) (h12 : r1 < r2) (h2 : r2 ≤ 10) :
    B_Pfus r2 RS_ITER RS_ITER ≤ B_Pfus r1 RS_ITER RS_ITER ∧
      B_Q_PB r2 RS_ITER RS_ITER ≤ B_Q_PB r1 RS_ITER RS_ITER ∧
      B_Q_CD r2 RS_ITER RS_ITER ≤ B_Q_CD r1 RS_ITER RS_ITER ∧
      B_f_zdiv r2 RS_ITER RS_ITER ≤ B_f_zdiv r1 RS_ITER RS_ITER := by
  have h01 : (0 : ℝ) < r1 := by linarith
  have h02 : (0 : ℝ) < r2 := by linarith
  have h12' : r1 ≤ r2 := le_of_lt h12
  refine ⟨?_, ?_, ?_, ?_⟩
  · have e1 : B_Pfus r1 RS_ITER RS_ITER =
        (400 : ℝ) ^ (0.25 : ℝ) * (3.1 : ℝ) ^ (0.5 : ℝ) * 3.1 /
          ((400 * 3.1 ^ 2 * 3.1 ^ 4 / (1.8 ^ 2 * 5.2 ^ 4 * 6.2 ^ 3) : ℝ) ^ (0.25 : ℝ) *
            (1.8 : ℝ) ^ (0.5 : ℝ) * r1 ^ (0.75 : ℝ)) := rfl
    have e2 : B_Pfus r2 RS_ITER RS_ITER =
        (400 : ℝ) ^ (0.25 : ℝ) * (3.1 : ℝ) ^ (0.5 : ℝ) * 3.1 /
          ((400 * 3.1 ^ 2 * 3.1 ^ 4 / (1.8 ^ 2 * 5.2 ^ 4 * 6.2 ^ 3) : ℝ) ^ (0.25 : ℝ) *
            (1.8 : ℝ) ^ (0.5 : ℝ) * r2 ^ (0.75 : ℝ)) := rfl
    rw [e1, e2]
    gcongr
  · have hbase : B_Q_PB_base r2 RS_ITER RS_ITER ≤ B_Q_PB_base r1 RS_ITER RS_ITER := by
      simp only [B_Q_PB_base, c_PB, RS_ITER]
      gcongr
    have hnn : 0 ≤ B_Q_PB_base r2 RS_ITER RS_ITER := by
      simp only [B_Q_PB_base, c_PB, RS_ITER]
      positivity
    simp only [B_Q_PB]
    exact Real.rpow_le_rpow hnn hbase (by norm_num)
  · rw [B_Q_CD_ITER_eval, B_Q_CD_ITER_eval]
    gcongr
  · rw [B_f_zdiv_ITER_eval, B_f_zdiv_ITER_eval]
    have hd : (6.2 : ℝ) / r2 ≤ 6.2 / r1 := by gcongr
    have h133 : ((6.2 : ℝ) / r2) ^ (1.33 : ℝ) ≤ ((6.2 : ℝ) / r1) ^ (1.33 : ℝ) :=
      Real.rpow_le_rpow (by positivity) hd (by norm_num)
    have houter : (((6.2 : ℝ) / r2) ^ (1.33 : ℝ)) ^ ((1 : ℝ) / 0.88) ≤
        (((6.2 : ℝ) / r1) ^ (1.33 : ℝ)) ^ ((1 : ℝ) / 0.88) :=
      Real.rpow_le_rpow (Real.rpow_nonneg (by positivity) _) h133 (by norm_num)
    nlinarith [houter]

/-- Witness for C5 at r1 = 3, r2 = 4. -/
theorem laws_monotone_witness :
    (2 : ℝ) ≤ 3 ∧ (3 : ℝ) < 4 ∧ (4 : ℝ) ≤ 10 ∧
      (B_Pfus 4 RS_ITER RS_ITER ≤ B_Pfus 3 RS_ITER RS_ITER ∧
        B_Q_PB 4 RS_ITER RS_ITER ≤ B_Q_PB 3 RS_ITER RS_ITER ∧
        B_Q_CD 4 RS_ITER RS_ITER ≤ B_Q_CD 3 RS_ITER RS_ITER ∧
        B_f_zdiv 4 RS_ITER RS_ITER ≤ B_f_zdiv 3 RS_ITER RS_ITER) :=
  ⟨by norm_num, by norm_num, by norm_num,
    laws_monotone_ITER 3 4 (by norm_num) (by norm_num) (by norm_num)⟩

/-- C7: for any target with `Q_PB = 1` and the remaining parameters in their
documented slider domains, and any radius in [2, 10], the PowerBalanceLaw
with the ITER reference (`Q_PB_ref = 10`) divides by no zero
(`Q_PB⁻¹ + 1/5 ≠ 0`) and takes the `1/3.7` power of a strictly positive
base. -/
theorem B_Q_PB_base_pos_at_QPB1 (t : ReactorScaling) (R : ℝ) (hQ : t.Q_PB = 1)
    (hq1 : 3.1 ≤ t.q) (hq2 : t.q ≤ 6) (hH1 : 1 ≤ t.H) (hH2 : t.H ≤ 1.2)
    (hb1 : 1.8 ≤ t.beta_N) (hb2 : t.beta_N ≤ 3.5) (hA : t.A = 3.1)
    (hR1 : 2 ≤ R) (hR2 : R ≤ 10) :
    t.Q_PB⁻¹ + 1 / 5 ≠ 0 ∧ 0 < B_Q_PB_base R t RS_ITER := by
  have hq0 : (0 : ℝ) < t.q := by linarith
  have hH0 : (0 : ℝ) < t.H := by linarith
  have hb0 : (0 : ℝ) < t.beta_N := by linarith
  have hA0 : (0 : ℝ) < t.A := by rw [hA]; norm_num
  have hR0 : (0 : ℝ) < R := by linarith
  constructor
  · rw [hQ]
    norm_num
  · simp only [B_Q_PB_base, c_PB, RS_ITER, hQ]
    positivity

/-- Witness for C7: the target `RS_QPB1` (ITER with `Q_PB = 1`) at R = 6.2. -/
theorem B_Q_PB_base_pos_witness :
    RS_QPB1.Q_PB = 1 ∧
      (RS_QPB1.Q_PB⁻¹ + 1 / 5 ≠ 0 ∧ 0 < B_Q_PB_base 6.2 RS_QPB1 RS_ITER) :=
  ⟨by norm_num [RS_QPB1],
    B_Q_PB_base_pos_at_QPB1 RS_QPB1 6.2 (by norm_num [RS_QPB1])
      (by norm_num [RS_QPB1]) (by norm_num [RS_QPB1]) (by norm_num [RS_QPB1])
      (by norm_num [RS_QPB1]) (by norm_num [RS_QPB1]) (by norm_num [RS_QPB1])
      (by norm_num [RS_QPB1]) (by norm_num) (by norm_num)⟩
